import Mathlib

/-!
Verification of the `api_track_changes` repository: a client-side API
monitoring utility.  Two implementation variants exist in the sources:

* the main-thread variant (`src/unnamed/part_001`): timers are created with
  `setInterval` in the page itself, and each poll cycle performs
  fetch / extract / diff (`fetchData`, `extractRelevantData`,
  `getSlugFromData`, `getNameFromData`, `updateMonitor`,
  `clearMonitorInterval`, `startMonitor`, `toggleMonitor`, `deleteMonitor`);
* the worker variant (`src/unnamed/part_000` + `src/public/monitorWorker.js`):
  timers live in a web worker keyed by monitor id, the worker posts raw
  parsed JSON back to the page.

Both are embedded below.  JavaScript values are modelled by `JsValue`
(numbers as integers; `===` on values is modelled structurally, which is
exact for the primitive values — strings, numbers, booleans, null — that
the slug/filter comparisons operate on).  `undefined` is modelled as
`Option.none` where it can arise (missing property, `Array.prototype.find`
miss); property access on `null` throws a TypeError, modelled by
`Except.error`.
-/

namespace ApiTrack

/-- A JavaScript (JSON) value. -/
inductive JsValue where
  | vNull
  | vBool (b : Bool)
  | vNum (n : Int)
  | vStr (s : String)
  | vArr (elems : List JsValue)
  | vObj (fields : List (String × JsValue))
deriving Repr

namespace JsValue

/-- JavaScript truthiness of a value (`NaN` is not modelled; arrays and
objects, including the empty ones, are truthy). -/
def truthy : JsValue → Bool
  | vNull => false
  | vBool b => b
  | vNum n => n != 0
  | vStr s => s != ""
  | vArr _ => true
  | vObj _ => true

end JsValue

open JsValue

mutual

/-- JS strict equality `===` between two values: exact for primitives
(`null`, booleans, numbers, strings); for arrays and objects the source
compares references, which we approximate structurally (the slug values the
program compares are primitives). -/
def jsStrictEq : JsValue → JsValue → Bool
  | .vNull, .vNull => true
  | .vBool a, .vBool b => a == b
  | .vNum a, .vNum b => a == b
  | .vStr a, .vStr b => a == b
  | .vArr xs, .vArr ys => jsStrictEqList xs ys
  | .vObj xs, .vObj ys => jsStrictEqFields xs ys
  | _, _ => false

/-- Structural equality of element lists. -/
def jsStrictEqList : List JsValue → List JsValue → Bool
  | [], [] => true
  | x :: xs, y :: ys => jsStrictEq x y && jsStrictEqList xs ys
  | _, _ => false

/-- Structural equality of field lists. -/
def jsStrictEqFields : List (String × JsValue) → List (String × JsValue) → Bool
  | [], [] => true
  | (k₁, v₁) :: xs, (k₂, v₂) :: ys => k₁ == k₂ && jsStrictEq v₁ v₂ && jsStrictEqFields xs ys
  | _, _ => false

end

/-- First binding of a key in an object's field list (JS object literals from
`JSON.parse` have unique keys; lookup takes the first). -/
def lookupField : List (String × JsValue) → String → Option JsValue
  | [], _ => none
  | (k, v) :: rest, key => if k = key then some v else lookupField rest key

/-- Property access `v.k` on a non-null receiver: `some` when the field is
present, `none` for `undefined` (any access on a non-object yields
`undefined`; this total function is only used where the receiver is known
not to be `null`). -/
def getField (v : JsValue) (k : String) : Option JsValue :=
  match v with
  | .vObj fields => lookupField fields k
  | _ => none

/-- Property access `v.k` in full: reading a property of `null` throws a
TypeError, modelled as `Except.error ()`. -/
def getFieldJS (v : JsValue) (k : String) : Except Unit (Option JsValue) :=
  match v with
  | .vNull => Except.error ()
  | .vObj fields => Except.ok (lookupField fields k)
  | _ => Except.ok none

/-- Truthiness of a possibly-`undefined` value. -/
def truthyOpt : Option JsValue → Bool
  | none => false
  | some v => truthy v

/-- JS strict equality `x === s` between a possibly-`undefined` value and a
string: true exactly when `x` is that string. -/
def strictEqStr (x : Option JsValue) (s : String) : Bool :=
  match x with
  | some (.vStr t) => t == s
  | _ => false

mutual

/-- JS string conversion as used by template literals. -/
def jsToString : JsValue → String
  | .vNull => "null"
  | .vBool b => cond b "true" "false"
  | .vNum n => toString n
  | .vStr s => s
  | .vArr xs => arrToString xs
  | .vObj _ => "[object Object]"

/-- `Array.prototype.toString`: elements joined by commas, a `null` element
rendered as the empty string. -/
def arrToString : List JsValue → String
  | [] => ""
  | [.vNull] => ""
  | [x] => jsToString x
  | .vNull :: y :: rest => "," ++ arrToString (y :: rest)
  | x :: y :: rest => jsToString x ++ "," ++ arrToString (y :: rest)

end

/-- `a || b` where `a` may be `undefined`: `a` when truthy, else `b`. -/
def jsOrElse (a : Option JsValue) (b : JsValue) : JsValue :=
  match a with
  | some v => if truthy v then v else b
  | none => b

/-- `Array.prototype.find` with a predicate that may throw: `none` is the
`undefined` returned on a miss. -/
def jsFind (p : JsValue → Except Unit Bool) : List JsValue → Except Unit (Option JsValue)
  | [] => Except.ok none
  | x :: xs =>
    match p x with
    | Except.error e => Except.error e
    | Except.ok true => Except.ok (some x)
    | Except.ok false => jsFind p xs

/-- `getSlugFromData` (part_001 lines 106–109):
`if (!data) return null; return data.slug || data.name || null;`.
Note the JS `||`: any falsy field value (empty string, 0, false, null)
falls through to the next alternative. -/
def getSlugFromData (data : JsValue) : JsValue :=
  if !truthy data then .vNull
  else jsOrElse (getField data "slug") (jsOrElse (getField data "name") .vNull)

/-- `getNameFromData` (part_001 lines 111–114):
`if (!data) return null; return data.name || data.displayName || data.title || null;`. -/
def getNameFromData (data : JsValue) : JsValue :=
  if !truthy data then .vNull
  else jsOrElse (getField data "name")
        (jsOrElse (getField data "displayName")
          (jsOrElse (getField data "title") .vNull))

/-- `extractRelevantData(data, id)` (part_001 lines 81–104).  Result values:
`ok (some v)` a returned value (including an explicit `null` as
`some vNull`), `ok none` the `undefined` of an `Array.prototype.find`
miss, `error ()` a thrown TypeError (`.find` on a non-array, or property
access on a `null` array element). -/
def extractRelevantData (data : JsValue) (id : String) : Except Unit (Option JsValue) :=
  -- if (data && data.queues) { ... }
  if truthy data && truthyOpt (getField data "queues") then
    match getField data "queues" with
    | some (.vArr qs) =>
      if id != "" then
        jsFind (fun q =>
          match getFieldJS q "name" with
          | .error e => .error e
          | .ok n => .ok (strictEqStr n id)) qs
      else Except.ok (some (.vArr qs))
    | some other =>
      if id != "" then Except.error () -- `.find` is not a function on a non-array
      else Except.ok (some other)
    | none => Except.ok none -- unreachable: the guard requires a truthy field
  else
    match data with
    -- if (Array.isArray(data)) { ... }
    | .vArr items =>
      if id != "" then
        jsFind (fun item =>
          match getFieldJS item "id" with
          | .error e => .error e
          | .ok i =>
            if strictEqStr i id then Except.ok true
            else
              match getFieldJS item "name" with
              | .error e => .error e
              | .ok n => .ok (strictEqStr n id)) items
      else Except.ok (some (.vArr items))
    -- if (typeof data === 'object' && data !== null) { ... }
    | .vObj fields =>
      if id != "" then
        if strictEqStr (getField (.vObj fields) "id") id
            || strictEqStr (getField (.vObj fields) "name") id then
          Except.ok (some (.vObj fields))
        else Except.ok (some .vNull)
      else Except.ok (some (.vObj fields))
    -- return null
    | _ => Except.ok (some .vNull)

/-! ## Monitor records and the main-thread application (part_001) -/

/-- The slug-change component of a difference record (source key
`slug_difference`), carrying the previous and current slug values. -/
structure SlugDifference where
  previous : JsValue
  current : JsValue
deriving Repr

/-- A detected difference record, as constructed in `fetchData`
(part_001 lines 162–169). -/
structure Difference where
  name : JsValue
  url : String
  slug_difference : SlugDifference
deriving Repr

/-- One monitor configuration (the object created in `addNewMonitor`,
part_001 lines 45–54).  `previousData` and `differences` start as `null`. -/
structure Monitor where
  id : String
  name : String
  apiUrl : String
  filterId : String
  interval : Int
  isRunning : Bool
  previousData : JsValue
  differences : Option Difference
deriving Repr

/-- An `updates` object passed to `updateMonitor`: a key is present exactly
when the corresponding component is `some` (`'interval' in updates` is
`interval.isSome`). -/
structure Updates where
  name : Option String := none
  apiUrl : Option String := none
  filterId : Option String := none
  interval : Option Int := none
  isRunning : Option Bool := none
  previousData : Option JsValue := none
  differences : Option Difference := none
deriving Repr

/-- The spread `{ ...monitor, ...updates }`. -/
def applyUpdates (m : Monitor) (u : Updates) : Monitor :=
  { id := m.id
    name := u.name.getD m.name
    apiUrl := u.apiUrl.getD m.apiUrl
    filterId := u.filterId.getD m.filterId
    interval := u.interval.getD m.interval
    isRunning := u.isRunning.getD m.isRunning
    previousData := u.previousData.getD m.previousData
    differences := match u.differences with
      | some d => some d
      | none => m.differences }

/-- A user-facing toast notification. -/
inductive Note where
  | success (msg : String)
  | failure (msg : String)
deriving Repr

/-- Outcome of reading the HTTP response body as text and attempting
`JSON.parse`, then the `window.queueFair.settings` fallback
(part_001 lines 133–149). -/
inductive BodyParse where
  | jsonOk (v : JsValue)
  | fallbackOk (v : JsValue)
  | fallbackBad
  | unsupported
deriving Repr

/-- The environment's answer to one `fetch` of the monitor's URL. -/
inductive PollInput where
  | netFail (msg : String)
  | httpResp (ok : Bool) (status : Nat) (body : BodyParse)
deriving Repr

/-- What one `fetchData` invocation does: the toasts it shows and the
single `updateMonitor(monitor.id, updates)` call it makes, if any. -/
structure FetchEffect where
  notes : List Note
  update : Option Updates
deriving Repr

/-- A caught exception surfaces as
`toast.error(\x60Error in $\x7bmonitor.name\x7d: $\x7berror.message\x7d\x60)`
(part_001 line 180). -/
def caughtEffect (m : Monitor) (msg : String) : FetchEffect :=
  { notes := [.failure ("Error in " ++ m.name ++ ": " ++ msg)], update := none }

/-- The `No data found` branch (part_001 lines 153–156). -/
def noDataEffect (m : Monitor) : FetchEffect :=
  { notes := [.failure ("No data found for the specified ID in " ++ m.name)],
    update := none }

/-- Steps 4–6 of a poll cycle (part_001 lines 151–178): extraction, slug
comparison and the resulting `updateMonitor` call.  A TypeError thrown
inside extraction is caught by the surrounding `catch`; its message text is
engine-defined, modelled as the empty string. -/
def processData (m : Monitor) (data : JsValue) : FetchEffect :=
  match extractRelevantData data m.filterId with
  | .error _ => caughtEffect m ""
  | .ok relevant =>
    if !truthyOpt relevant then noDataEffect m
    else
      let relevantData := relevant.getD .vNull
      let currentSlug := getSlugFromData relevantData
      let previousSlug := if truthy m.previousData then getSlugFromData m.previousData else .vNull
      if truthy m.previousData && !jsStrictEq currentSlug previousSlug then
        let difference : Difference :=
          { name := getNameFromData relevantData
            url := m.apiUrl ++ "/" ++ jsToString currentSlug
            slug_difference := { previous := previousSlug, current := currentSlug } }
        { notes := [.success ("Changes detected in " ++ m.name ++ "!")]
          update := some { differences := some difference, previousData := some relevantData } }
      else
        { notes := [], update := some { previousData := some relevantData } }

/-- `fetchData(monitor)` (part_001 lines 116–183) as a function of the
monitor object captured by the caller and the network's behaviour. -/
def fetchData (m : Monitor) (input : PollInput) : FetchEffect :=
  if m.apiUrl = "" then
    { notes := [.failure ("Please enter an API URL for " ++ m.name)], update := none }
  else
    match input with
    | .netFail msg => caughtEffect m msg
    | .httpResp ok status body =>
      if !ok then caughtEffect m ("HTTP error! status: " ++ toString status)
      else
        match body with
        | .jsonOk v => processData m v
        | .fallbackOk v => processData m v
        | .fallbackBad => caughtEffect m "Failed to parse response data"
        | .unsupported => caughtEffect m "Unsupported response format"

/-! ### Timer and registry state of the main-thread application

`setInterval` allocates a fresh positive handle; `clearInterval h` removes
`h` from the set of live timers.  A live timer carries the monitor object
captured by its callback closure, so "an active recurring timer for id"
means a live timer whose captured monitor has that id.  `pollLog` records
the monitors for which an immediate `fetchData` call was issued by
`startMonitor`. -/

/-- One live `setInterval` timer of the main-thread application. -/
structure TimerRec where
  handle : Nat
  monitor : Monitor
deriving Repr

/-- The page state: the `monitors` array, the `intervals` id-to-handle map,
the set of live timers, the next handle `setInterval` will return, and the
log of immediate polls issued by `startMonitor`. -/
structure AppState where
  monitors : List Monitor
  intervals : List (String × Nat)
  liveTimers : List TimerRec
  nextHandle : Nat
  pollLog : List Monitor
deriving Repr

/-- The state right after mount with a given monitors array: no timers
(browser `setInterval` handles are positive, so they are always truthy). -/
def initState (ms : List Monitor) : AppState :=
  { monitors := ms, intervals := [], liveTimers := [], nextHandle := 1, pollLog := [] }

/-- Lookup in the `intervals` map. -/
def lookupHandle : List (String × Nat) → String → Option Nat
  | [], _ => none
  | (k, h) :: rest, key => if k = key then some h else lookupHandle rest key

/-- Number of live timers whose callback polls the given monitor id. -/
def activeTimers (s : AppState) (id : String) : Nat :=
  (s.liveTimers.filter (fun t => t.monitor.id = id)).length

/-- `clearMonitorInterval(monitorId)` (part_001 lines 33–42): when the map
holds a handle for the id, `clearInterval` it and delete the entry;
otherwise do nothing. -/
def clearMonitorInterval (s : AppState) (monitorId : String) : AppState :=
  match lookupHandle s.intervals monitorId with
  | some h =>
    { s with
      liveTimers := s.liveTimers.filter (fun t => t.handle ≠ h)
      intervals := s.intervals.filter (fun e => e.1 ≠ monitorId) }
  | none => s

/-- `updateMonitor(id, updates)` (part_001 lines 59–71): for the matching
monitor, first `clearMonitorInterval(id)` when `'interval' in updates` or
`updates.isRunning === false`, then merge the updates. -/
def updateMonitorOp (s : AppState) (id : String) (u : Updates) : AppState :=
  let s' :=
    if (s.monitors.any (fun m => m.id = id)) &&
        (u.interval.isSome || u.isRunning == some false) then
      clearMonitorInterval s id
    else s
  { s' with
    monitors := s'.monitors.map (fun m => if m.id = id then applyUpdates m u else m) }

/-- `startMonitor(monitor)` (part_001 lines 185–190): issue one immediate
`fetchData`, create a recurring timer, store its handle in the map
(overwriting any previous handle for the id without clearing that timer),
and mark the monitor running.  There is no already-running guard. -/
def startMonitorOp (s : AppState) (m : Monitor) : AppState :=
  let h := s.nextHandle
  let s₁ : AppState :=
    { s with
      pollLog := s.pollLog ++ [m]
      liveTimers := s.liveTimers ++ [{ handle := h, monitor := m }]
      nextHandle := h + 1
      intervals := s.intervals.filter (fun e => e.1 ≠ m.id) ++ [(m.id, h)] }
  updateMonitorOp s₁ m.id { isRunning := some true }

/-- `toggleMonitor(monitor)` (part_001 lines 192–199). -/
def toggleMonitorOp (s : AppState) (m : Monitor) : AppState :=
  if !m.isRunning then startMonitorOp s m
  else updateMonitorOp (clearMonitorInterval s m.id) m.id { isRunning := some false }

/-- `deleteMonitor(id)` (part_001 lines 73–79), without the UI selection. -/
def deleteMonitorOp (s : AppState) (id : String) : AppState :=
  let s₁ := clearMonitorInterval s id
  { s₁ with monitors := s₁.monitors.filter (fun m => m.id ≠ id) }

/-- The restore effect on mount (part_001 lines 12–26): set the monitors
array from storage, then `startMonitor` each entry with `isRunning` true. -/
def restoreMain (saved : List Monitor) : AppState :=
  saved.foldl (fun s m => if m.isRunning then startMonitorOp s m else s)
    (initState saved)

/-- Applying one completed `fetchData` for a captured monitor object to the
page state: perform its `updateMonitor` call, if any, and report its
toasts. -/
def fetchDataStep (s : AppState) (m : Monitor) (input : PollInput) : AppState × List Note :=
  let eff := fetchData m input
  (match eff.update with
   | some u => updateMonitorOp s m.id u
   | none => s,
   eff.notes)

/-! ## The worker variant (src/public/monitorWorker.js + part_000)

The worker keeps `self.monitors`, a list of `(id, intervalId)` records, and
creates one `setInterval` per START_MONITOR message (with a duplicate-id
guard); each tick fetches the monitor's URL and posts either the raw parsed
JSON (`UPDATE_DATA`) or an error message (`ERROR`) back to the page. -/

/-- One live worker timer: handle plus the monitor captured by the tick
closure. -/
structure WorkerTimer where
  handle : Nat
  monitor : Monitor
deriving Repr

/-- The worker's state: `self.monitors` plus the live timers and the next
`setInterval` handle. -/
structure WorkerState where
  monitors : List (String × Nat)
  liveTimers : List WorkerTimer
  nextHandle : Nat
deriving Repr

/-- The worker's state at script load: `self.monitors = []`. -/
def workerInit : WorkerState :=
  { monitors := [], liveTimers := [], nextHandle := 1 }

/-- A message posted to the worker (part_000 posts `START_MONITOR` and
`STOP_MONITOR` with a monitor object; stop only uses its id). -/
inductive WorkerMsg where
  | start (m : Monitor)
  | stop (id : String)
deriving Repr

/-- Number of live worker timers polling the given monitor id. -/
def workerActiveTimers (s : WorkerState) (id : String) : Nat :=
  (s.liveTimers.filter (fun t => t.monitor.id = id)).length

/-- `self.onmessage` (monitorWorker.js lines 3–41): START_MONITOR is a no-op
when an entry with the same id exists, else it creates a timer and pushes
`(id, intervalId)`; STOP_MONITOR clears and removes the first entry with the
id, if any. -/
def workerOnMessage (s : WorkerState) (msg : WorkerMsg) : WorkerState :=
  match msg with
  | .start m =>
    if s.monitors.any (fun e => e.1 = m.id) then s
    else
      let h := s.nextHandle
      { monitors := s.monitors ++ [(m.id, h)]
        liveTimers := s.liveTimers ++ [{ handle := h, monitor := m }]
        nextHandle := h + 1 }
  | .stop id =>
    match s.monitors.find? (fun e => e.1 = id) with
    | none => s
    | some entry =>
      { s with
        liveTimers := s.liveTimers.filter (fun t => t.handle ≠ entry.2)
        monitors := s.monitors.eraseP (fun e => e.1 = id) }

/-- The worker's answer to one tick's `fetch`: `response.json()` either
resolves to a value or rejects with an engine message. -/
inductive WorkerPollInput where
  | netFail (msg : String)
  | httpResp (ok : Bool) (status : Nat) (body : Except String JsValue)
deriving Repr

/-- A message the worker posts back to the page. -/
inductive WorkerOut where
  | updateData (monitorId : String) (data : JsValue)
  | workerErr (monitorId : String) (error : String)
deriving Repr

/-- One interval-callback execution in the worker (monitorWorker.js lines
10–29): on success post the raw parsed body; any error is caught and posted
as ERROR.  The tick never touches the worker's timer state. -/
def workerTick (m : Monitor) (input : WorkerPollInput) : WorkerOut :=
  match input with
  | .netFail msg => .workerErr m.id msg
  | .httpResp ok status body =>
    if !ok then .workerErr m.id ("HTTP " ++ toString status)
    else
      match body with
      | .error msg => .workerErr m.id msg
      | .ok v => .updateData m.id v

/-- part_000's `updateMonitor` (lines 63–67): a plain merge, with no timer
bookkeeping. -/
def updateMonitorB (monitors : List Monitor) (id : String) (u : Updates) : List Monitor :=
  monitors.map (fun m => if m.id = id then applyUpdates m u else m)

/-- The page's `monitorWorker.onmessage` handler (part_000 lines 30–41):
UPDATE_DATA stores the raw data as `previousData` and toasts success; ERROR
only toasts. -/
def handleWorkerMessage (monitors : List Monitor) (out : WorkerOut) :
    List Monitor × List Note :=
  match out with
  | .updateData monitorId data =>
    (updateMonitorB monitors monitorId { previousData := some data },
     [.success ("Update received for " ++ monitorId)])
  | .workerErr monitorId msg =>
    (monitors, [.failure ("Error in " ++ monitorId ++ ": " ++ msg)])

/-- The restore effect on mount in part_000 (lines 16–21): the saved
monitors are loaded into state and no worker message is posted — in
particular no START_MONITOR for entries saved with `isRunning` true. -/
def restoreWorkerVariant (saved : List Monitor) : List Monitor × List WorkerMsg :=
  (saved, [])

/-! ## Spec-side comparators and shared concrete data -/

/-- Nullish coalescing `a ?? b`: `b` exactly when `a` is `undefined` or
`null`. -/
def jsNullish (a : Option JsValue) (b : JsValue) : JsValue :=
  match a with
  | none => b
  | some .vNull => b
  | some v => v

/-- Modelled from the spec (for comparison with `getSlugFromData`):
`slug = record.slug ?? record.name ?? null`. -/
def slugByNullish (record : JsValue) : JsValue :=
  jsNullish (getField record "slug") (jsNullish (getField record "name") .vNull)

/-- Modelled from the spec (for comparison with `getNameFromData`):
`displayName(record) = record.name ?? record.displayName ?? record.title ?? null`. -/
def displayNameByNullish (record : JsValue) : JsValue :=
  jsNullish (getField record "name")
    (jsNullish (getField record "displayName")
      (jsNullish (getField record "title") .vNull))

/-- A possibly-absent field value that never holds a falsy non-null value:
on such fields `||` and `??` agree. -/
def nullishSafe (x : Option JsValue) : Prop :=
  ∀ v, x = some v → v = .vNull ∨ truthy v = true

/-- The monitor a fresh `addNewMonitor` would create (id from `Date.now()`),
used as concrete test data. -/
def demoMonitor : Monitor :=
  { id := "1", name := "Monitor 1", apiUrl := "http://api.example.com",
    filterId := "", interval := 30, isRunning := false,
    previousData := .vNull, differences := none }

/-- The registry entry with a given id, `monitors.find(m => m.id === id)`. -/
def findMonitor (s : AppState) (id : String) : Option Monitor :=
  s.monitors.find? (fun m => m.id == id)

/-! ## Theorems -/

/-- On a field value that is absent, `null`, or truthy, the `||` step of the
source agrees with the `??` step of the spec. -/
theorem jsOrElse_eq_jsNullish (a : Option JsValue) (b : JsValue)
    (h : nullishSafe a) : jsOrElse a b = jsNullish a b := by
  cases a with
  | none => rfl
  | some v =>
    rcases h v rfl with h1 | h1
    · subst h1; rfl
    · cases v <;> simp_all [jsOrElse, jsNullish, truthy]

/-- C5 (counterexample): the claim reads the slug chain as nullish
coalescing, but the source uses `||`; on the record with `slug` the empty
string and `name` the string `x`, the source returns `x` while the claimed
`record.slug ?? record.name ?? null` returns the empty string. -/
theorem c5_counterexample :
    getSlugFromData (.vObj [("slug", .vStr ""), ("name", .vStr "x")]) = .vStr "x" ∧
    slugByNullish (.vObj [("slug", .vStr ""), ("name", .vStr "x")]) = .vStr "" ∧
    getSlugFromData (.vObj [("slug", .vStr ""), ("name", .vStr "x")])
      ≠ slugByNullish (.vObj [("slug", .vStr ""), ("name", .vStr "x")]) := by
  refine ⟨rfl, rfl, fun h => ?_⟩
  have h' : JsValue.vStr "x" = JsValue.vStr "" := h
  injection h' with h''
  exact absurd h'' (by decide)

/-- C5 (amended): the slug is `record.slug || record.name || null` and the
display name is `record.name || record.displayName || record.title || null`
— the first truthy value of the chain, falsy fields (empty string, `0`,
`false`, `null`) falling through; this coincides with the claimed `??`
chains whenever every field in the chain is absent, `null`, or truthy. -/
theorem c5_slug_name_chains (record : JsValue)
    (ht : truthy record = true)
    (hslug : nullishSafe (getField record "slug"))
    (hname : nullishSafe (getField record "name"))
    (hdisp : nullishSafe (getField record "displayName"))
    (htitle : nullishSafe (getField record "title")) :
    getSlugFromData record = slugByNullish record ∧
    getNameFromData record = displayNameByNullish record := by
  constructor
  · rw [getSlugFromData, slugByNullish, ht]
    simp only [Bool.not_true, Bool.false_eq_true, if_false]
    rw [jsOrElse_eq_jsNullish _ _ hname, jsOrElse_eq_jsNullish _ _ hslug]
  · rw [getNameFromData, displayNameByNullish, ht]
    simp only [Bool.not_true, Bool.false_eq_true, if_false]
    rw [jsOrElse_eq_jsNullish _ _ htitle, jsOrElse_eq_jsNullish _ _ hdisp,
      jsOrElse_eq_jsNullish _ _ hname]

/-- C5 (witness): the amended chain equalities evaluated on a record whose
chain fields are all truthy. -/
theorem c5_slug_name_chains_witness :
    getSlugFromData (.vObj [("slug", .vStr "v1"), ("name", .vStr "n")])
      = slugByNullish (.vObj [("slug", .vStr "v1"), ("name", .vStr "n")]) ∧
    getNameFromData (.vObj [("slug", .vStr "v1"), ("name", .vStr "n")])
      = displayNameByNullish (.vObj [("slug", .vStr "v1"), ("name", .vStr "n")]) := by
  refine c5_slug_name_chains _ rfl ?_ ?_ ?_ ?_ <;>
    · intro v hv
      first
        | (injection hv with hv'; exact Or.inr (hv' ▸ rfl))
        | exact absurd hv (by simp [getField, lookupField])

/-- C7: a poll cycle for a monitor whose `apiUrl` is empty only toasts a
validation error naming the monitor: the state — registry entries, their
`previousData` and `differences`, the interval map and every live timer —
is returned unchanged, whatever the network would have answered. -/
theorem c7_empty_url_validation (s : AppState) (m : Monitor) (input : PollInput)
    (h : m.apiUrl = "") :
    fetchDataStep s m input
      = (s, [.failure ("Please enter an API URL for " ++ m.name)]) := by
  simp [fetchDataStep, fetchData, h]

/-- C7 (witness): the validation-error cycle evaluated on a concrete
monitor with an empty URL. -/
theorem c7_empty_url_validation_witness :
    fetchDataStep (initState [{ demoMonitor with apiUrl := "" }])
        { demoMonitor with apiUrl := "" } (.netFail "network down")
      = (initState [{ demoMonitor with apiUrl := "" }],
         [.failure ("Please enter an API URL for " ++ "Monitor 1")]) :=
  c7_empty_url_validation _ _ _ rfl

/-- C1 (counterexample): in the main-thread variant, `startMonitor` has no
already-running guard: calling it twice on the same monitor without an
intervening stop leaves two live recurring timers polling that id (the
second call also overwrites the stored handle of the first timer, so the
first can no longer be cleared). -/
theorem c1_counterexample :
    activeTimers
      (startMonitorOp (startMonitorOp (initState [demoMonitor]) demoMonitor) demoMonitor)
      demoMonitor.id = 2 ∧
    lookupHandle
      (startMonitorOp (startMonitorOp (initState [demoMonitor]) demoMonitor)
        demoMonitor).intervals demoMonitor.id = some 2 := ⟨rfl, rfl⟩

/-- C1 (amended): in the worker variant a second START_MONITOR for the same
id is a no-op, leaving exactly one active timer for that id; in the
main-thread variant `startMonitor` has no such guard and every call adds a
live timer. -/
theorem c1_duplicate_start (s : WorkerState) (m : Monitor)
    (hmon : s.monitors.any (fun e => e.1 = m.id) = false)
    (hlive : workerActiveTimers s m.id = 0) :
    workerOnMessage (workerOnMessage s (.start m)) (.start m)
      = workerOnMessage s (.start m) ∧
    workerActiveTimers (workerOnMessage s (.start m)) m.id = 1 ∧
    ∀ (t : AppState) (m' : Monitor),
      (startMonitorOp t m').liveTimers.length = t.liveTimers.length + 1 := by
  refine ⟨?_, ?_, ?_⟩
  · simp [workerOnMessage, hmon]
  · simp only [workerOnMessage, hmon, Bool.false_eq_true, if_false]
    simp only [workerActiveTimers, List.filter_append] at hlive ⊢
    simp [hlive]
  · intro t m'
    simp [startMonitorOp, updateMonitorOp, clearMonitorInterval]

/-- C1 (witness): the duplicate-start guard evaluated from the worker's
initial state. -/
theorem c1_duplicate_start_witness :
    workerOnMessage (workerOnMessage workerInit (.start demoMonitor)) (.start demoMonitor)
      = workerOnMessage workerInit (.start demoMonitor) ∧
    workerActiveTimers (workerOnMessage workerInit (.start demoMonitor))
      demoMonitor.id = 1 :=
  ⟨(c1_duplicate_start workerInit demoMonitor rfl rfl).1,
   (c1_duplicate_start workerInit demoMonitor rfl rfl).2.1⟩

/-- C10: in the worker variant a successful tick posts the raw parsed JSON
body, and the page handler stores exactly that value as the monitor's
`previousData` — no extraction, filtering or slug comparison is applied —
while every monitor's `differences` field is left unchanged. -/
theorem c10_worker_raw_update (monitors : List Monitor) (m : Monitor)
    (st : Nat) (v : JsValue) :
    workerTick m (.httpResp true st (.ok v)) = .updateData m.id v ∧
    handleWorkerMessage monitors (.updateData m.id v)
      = (monitors.map (fun x => if x.id = m.id then { x with previousData := v } else x),
         [.success ("Update received for " ++ m.id)]) ∧
    (handleWorkerMessage monitors (.updateData m.id v)).1.map (fun x => x.differences)
      = monitors.map (fun x => x.differences) := by
  refine ⟨rfl, ?_, ?_⟩
  · simp only [handleWorkerMessage, updateMonitorB, applyUpdates]
    refine Prod.ext ?_ rfl
    exact List.map_congr_left fun x _ => by split <;> rfl
  · simp only [handleWorkerMessage, updateMonitorB, List.map_map]
    exact List.map_congr_left fun x _ => by
      simp only [Function.comp_apply, applyUpdates]
      split <;> rfl

/-- C2 (counterexample): editing the interval of a running monitor clears
its recurring timer but leaves `isRunning` true, so after the edit the flag
is set while no active timer exists — the claimed equivalence fails on this
code path. -/
theorem c2_counterexample :
    (findMonitor
        (updateMonitorOp (startMonitorOp (initState [demoMonitor]) demoMonitor)
          demoMonitor.id { interval := some 60 })
        demoMonitor.id).map Monitor.isRunning = some true ∧
    activeTimers
      (updateMonitorOp (startMonitorOp (initState [demoMonitor]) demoMonitor)
        demoMonitor.id { interval := some 60 })
      demoMonitor.id = 0 := ⟨rfl, rfl⟩

/-- C2 (amended): in the main-thread variant, start establishes the flag
together with one live timer, toggle-stop cancels the timer and resets the
flag, delete cancels the timer, and a poll-result update touches neither;
but `updateMonitor` with an interval change cancels the timer while leaving
`isRunning` unchanged (true), so after an interval edit on a running
monitor the flag no longer implies an active timer. -/
theorem c2_flag_timer_correspondence (m : Monitor) (k : Int) (r : JsValue)
    (d : Option Difference) :
    let s := startMonitorOp (initState [m]) m
    ((findMonitor s m.id).map Monitor.isRunning = some true
      ∧ activeTimers s m.id = 1) ∧
    ((findMonitor (toggleMonitorOp s { m with isRunning := true }) m.id).map
        Monitor.isRunning = some false
      ∧ activeTimers (toggleMonitorOp s { m with isRunning := true }) m.id = 0) ∧
    (activeTimers (deleteMonitorOp s m.id) m.id = 0
      ∧ findMonitor (deleteMonitorOp s m.id) m.id = none) ∧
    ((findMonitor (updateMonitorOp s m.id { previousData := some r, differences := d })
        m.id).map Monitor.isRunning = some true
      ∧ activeTimers (updateMonitorOp s m.id { previousData := some r, differences := d })
          m.id = 1) ∧
    ((findMonitor (updateMonitorOp s m.id { interval := some k }) m.id).map
        Monitor.isRunning = some true
      ∧ activeTimers (updateMonitorOp s m.id { interval := some k }) m.id = 0) := by
  intro s
  refine ⟨⟨?_, ?_⟩, ⟨?_, ?_⟩, ⟨?_, ?_⟩, ⟨?_, ?_⟩, ⟨?_, ?_⟩⟩ <;>
    simp [s, startMonitorOp, updateMonitorOp, toggleMonitorOp, deleteMonitorOp,
      clearMonitorInterval, initState, findMonitor, activeTimers, lookupHandle,
      applyUpdates]

/-- C3 (counterexample): renaming a running monitor does not stop it — the
recurring timer stays live and `isRunning` stays true, where the claim
requires a forced transition to STOPPED. -/
theorem c3_counterexample :
    activeTimers
      (updateMonitorOp (startMonitorOp (initState [demoMonitor]) demoMonitor)
        demoMonitor.id { name := some "Renamed" })
      demoMonitor.id = 1 ∧
    (findMonitor
        (updateMonitorOp (startMonitorOp (initState [demoMonitor]) demoMonitor)
          demoMonitor.id { name := some "Renamed" })
        demoMonitor.id).map Monitor.isRunning = some true := ⟨rfl, rfl⟩

/-- C3 (amended): in the main-thread variant, editing `interval` while
running cancels the recurring timer and does not restart it, but the
monitor stays marked running (`isRunning` remains true); editing `name`,
`apiUrl` or `filterId` leaves the timer live and the run state
unchanged. -/
theorem c3_edit_while_running (m : Monitor) (k : Int) (nm addr fk : String) :
    let s := startMonitorOp (initState [m]) m
    (activeTimers (updateMonitorOp s m.id { interval := some k }) m.id = 0
      ∧ (findMonitor (updateMonitorOp s m.id { interval := some k }) m.id).map
          Monitor.isRunning = some true) ∧
    (activeTimers (updateMonitorOp s m.id { name := some nm }) m.id = 1
      ∧ (findMonitor (updateMonitorOp s m.id { name := some nm }) m.id).map
          Monitor.isRunning = some true) ∧
    (activeTimers (updateMonitorOp s m.id { apiUrl := some addr }) m.id = 1
      ∧ (findMonitor (updateMonitorOp s m.id { apiUrl := some addr }) m.id).map
          Monitor.isRunning = some true) ∧
    (activeTimers (updateMonitorOp s m.id { filterId := some fk }) m.id = 1
      ∧ (findMonitor (updateMonitorOp s m.id { filterId := some fk }) m.id).map
          Monitor.isRunning = some true) := by
  intro s
  refine ⟨⟨?_, ?_⟩, ⟨?_, ?_⟩, ⟨?_, ?_⟩, ⟨?_, ?_⟩⟩ <;>
    simp [s, startMonitorOp, updateMonitorOp, clearMonitorInterval, initState,
      findMonitor, activeTimers, lookupHandle, applyUpdates]

/-- C4: in a poll cycle that successfully extracts a record `r`, if a
previous snapshot existed and the new slug differs, the monitor update sets
the difference record (display name, `apiUrl/slug` URL, previous and
current slug) together with the new snapshot and a change-detected toast is
shown; otherwise only the snapshot is updated, no toast is shown, and —
since the update carries no `differences` key — the existing difference
record of any monitor it is merged into is untouched.  (The difference
record's source key is `slug_difference`; the claim's `slugChange` names
the same component.) -/
theorem c4_diff_cycle (m : Monitor) (body : JsValue) (st : Nat) (r : JsValue)
    (hurl : ¬ m.apiUrl = "")
    (hex : extractRelevantData body m.filterId = Except.ok (some r))
    (htr : truthy r = true) :
    (truthy m.previousData = true →
      jsStrictEq (getSlugFromData r) (getSlugFromData m.previousData) = false →
      fetchData m (.httpResp true st (.jsonOk body))
        = { notes := [.success ("Changes detected in " ++ m.name ++ "!")],
            update := some
              { differences := some
                  { name := getNameFromData r,
                    url := m.apiUrl ++ "/" ++ jsToString (getSlugFromData r),
                    slug_difference :=
                      { previous := getSlugFromData m.previousData,
                        current := getSlugFromData r } },
                previousData := some r } }) ∧
    (truthy m.previousData = false ∨
        jsStrictEq (getSlugFromData r) (getSlugFromData m.previousData) = true →
      fetchData m (.httpResp true st (.jsonOk body))
        = { notes := [], update := some { previousData := some r } }) ∧
    (∀ mon : Monitor,
      (applyUpdates mon { previousData := some r }).differences = mon.differences) := by
  refine ⟨?_, ?_, fun mon => rfl⟩
  · intro h1 h2
    simp [fetchData, processData, hurl, hex, truthyOpt, htr, h1, h2]
  · intro h
    rcases h with h | h
    · simp [fetchData, processData, hurl, hex, truthyOpt, htr, h]
    · cases htp : truthy m.previousData <;>
        simp [fetchData, processData, hurl, hex, truthyOpt, htr, htp, h]

/-- C4 (witness): the difference branch evaluated on a concrete monitor
whose snapshot slug is `v1` and a response whose slug is `v2`. -/
theorem c4_diff_cycle_witness :
    fetchData
      { id := "1", name := "M", apiUrl := "http://a", filterId := "",
        interval := 30, isRunning := true,
        previousData := .vObj [("slug", .vStr "v1")], differences := none }
      (.httpResp true 200 (.jsonOk (.vObj [("slug", .vStr "v2"), ("name", .vStr "n")])))
    = { notes := [.success ("Changes detected in " ++ "M" ++ "!")],
        update := some
          { differences := some
              { name := .vStr "n", url := "http://a" ++ "/" ++ "v2",
                slug_difference := { previous := .vStr "v1", current := .vStr "v2" } },
            previousData := some (.vObj [("slug", .vStr "v2"), ("name", .vStr "n")]) } } :=
  (c4_diff_cycle
    { id := "1", name := "M", apiUrl := "http://a", filterId := "",
      interval := 30, isRunning := true,
      previousData := .vObj [("slug", .vStr "v1")], differences := none }
    (.vObj [("slug", .vStr "v2"), ("name", .vStr "n")]) 200
    (.vObj [("slug", .vStr "v2"), ("name", .vStr "n")])
    (by decide) rfl rfl).1 rfl rfl

/-- Property access on a non-null value never throws. -/
theorem getFieldJS_eq_ok (v : JsValue) (k : String) (h : v ≠ .vNull) :
    getFieldJS v k = Except.ok (getField v k) := by
  cases v <;> simp_all [getFieldJS, getField]

/-- On a list without null elements, the `queue.name === id` search neither
throws nor differs from a pure `find?` over the field comparison. -/
theorem jsFind_name_eq (fk : String) (qs : List JsValue)
    (h : ∀ q ∈ qs, q ≠ .vNull) :
    jsFind (fun q =>
        match getFieldJS q "name" with
        | .error e => .error e
        | .ok n => .ok (strictEqStr n fk)) qs
      = Except.ok (qs.find? (fun q => strictEqStr (getField q "name") fk)) := by
  induction qs with
  | nil => rfl
  | cons q rest ih =>
    have hq : q ≠ JsValue.vNull := h q (List.mem_cons_self q rest)
    have ih' := ih (fun x hx => h x (List.mem_cons_of_mem q hx))
    rw [jsFind, getFieldJS_eq_ok q "name" hq]
    cases hb : strictEqStr (getField q "name") fk
    · simp only [hb, List.find?]
      exact ih'
    · simp [hb, List.find?]

/-- On a list without null elements, the `item.id === id || item.name === id`
search equals a pure `find?` over the disjunction of field comparisons. -/
theorem jsFind_id_name_eq (fk : String) (xs : List JsValue)
    (h : ∀ x ∈ xs, x ≠ .vNull) :
    jsFind (fun item =>
        match getFieldJS item "id" with
        | .error e => .error e
        | .ok i =>
          if strictEqStr i fk then Except.ok true
          else
            match getFieldJS item "name" with
            | .error e => .error e
            | .ok n => .ok (strictEqStr n fk)) xs
      = Except.ok (xs.find? (fun x =>
          strictEqStr (getField x "id") fk || strictEqStr (getField x "name") fk)) := by
  induction xs with
  | nil => rfl
  | cons x rest ih =>
    have hx : x ≠ JsValue.vNull := h x (List.mem_cons_self x rest)
    have ih' := ih (fun y hy => h y (List.mem_cons_of_mem x hy))
    rw [jsFind, getFieldJS_eq_ok x "id" hx, getFieldJS_eq_ok x "name" hx]
    cases hid : strictEqStr (getField x "id") fk
    · cases hnm : strictEqStr (getField x "name") fk
      · simp only [hid, hnm, Bool.false_eq_true, if_false, List.find?, Bool.or_false]
        exact ih'
      · simp [hid, hnm, List.find?]
    · simp [hid, List.find?]

/-- C6 (counterexample): the claimed case analysis fails where a body has a
truthy non-list `queues` field or a list has null elements.  On
`{queues: "x", id: "a"}` with no filter the code returns the `queues`
value `"x"` itself — not the whole record the claim's single-record case
demands; with filter `"a"` (the record's own `id` matches) the code throws
a TypeError (`.find` on a non-array) instead of returning the record; on
`[null, {id: "y"}]` with filter `"y"` the scan throws a TypeError on
`null.id` instead of returning the matching entry. -/
theorem c6_counterexample :
    extractRelevantData (.vObj [("queues", .vStr "x"), ("id", .vStr "a")]) ""
      = Except.ok (some (.vStr "x")) ∧
    extractRelevantData (.vObj [("queues", .vStr "x"), ("id", .vStr "a")]) ""
      ≠ Except.ok (some (.vObj [("queues", .vStr "x"), ("id", .vStr "a")])) ∧
    extractRelevantData (.vObj [("queues", .vStr "x"), ("id", .vStr "a")]) "a"
      = Except.error () ∧
    extractRelevantData (.vArr [.vNull, .vObj [("id", .vStr "y")]]) "y"
      = Except.error () := by
  refine ⟨rfl, fun h => ?_, rfl, rfl⟩
  have h₀ : (Except.ok (some (JsValue.vStr "x")) : Except Unit (Option JsValue))
      = Except.ok (some (.vObj [("queues", .vStr "x"), ("id", .vStr "a")])) := h
  have h₁ := Option.some.inj (Except.ok.inj h₀)
  exact JsValue.noConfusion h₁

/-- C6 (amended): `extractRelevantData` follows the claimed case analysis
on well-behaved bodies, and deviates exactly as stated elsewhere.  A body
whose `queues` field holds a list yields the entry whose `name` equals the
filter when one is set (`find?` returning the JS `undefined` on a miss,
which the claim's "null" denotes) and the whole list otherwise; a plain
list without null elements yields the entry whose `id` or `name` equals
the filter when one is set, else the whole list; an object without a
truthy `queues` field is returned when the filter is unset or matches its
`id`/`name` and otherwise yields null; primitive bodies yield null.
Deviating from the claim: an object whose `queues` field is truthy but not
a list returns that `queues` value itself when the filter is unset and
throws a TypeError (caught as a generic poll error) when it is set; a list
whose filter scan reaches a null element throws a TypeError. -/
theorem c6_extract_cases :
    (∀ (qs : List JsValue) (rest : List (String × JsValue)) (fk : String),
      fk ≠ "" → (∀ q ∈ qs, q ≠ .vNull) →
      extractRelevantData (.vObj (("queues", .vArr qs) :: rest)) fk
        = Except.ok (qs.find? (fun q => strictEqStr (getField q "name") fk))) ∧
    (∀ (qs : List JsValue) (rest : List (String × JsValue)),
      extractRelevantData (.vObj (("queues", .vArr qs) :: rest)) ""
        = Except.ok (some (.vArr qs))) ∧
    (∀ (xs : List JsValue) (fk : String),
      fk ≠ "" → (∀ x ∈ xs, x ≠ .vNull) →
      extractRelevantData (.vArr xs) fk
        = Except.ok (xs.find? (fun x =>
            strictEqStr (getField x "id") fk || strictEqStr (getField x "name") fk))) ∧
    (∀ (xs : List JsValue),
      extractRelevantData (.vArr xs) "" = Except.ok (some (.vArr xs))) ∧
    (∀ (fields : List (String × JsValue)) (fk : String),
      truthyOpt (lookupField fields "queues") = false →
      extractRelevantData (.vObj fields) fk
        = Except.ok (some
            (if fk = "" then .vObj fields
             else if strictEqStr (lookupField fields "id") fk
                 || strictEqStr (lookupField fields "name") fk then .vObj fields
             else .vNull))) ∧
    (∀ (fk : String) (n : Int) (str : String) (b : Bool),
      extractRelevantData .vNull fk = Except.ok (some .vNull) ∧
      extractRelevantData (.vBool b) fk = Except.ok (some .vNull) ∧
      extractRelevantData (.vNum n) fk = Except.ok (some .vNull) ∧
      extractRelevantData (.vStr str) fk = Except.ok (some .vNull)) ∧
    (∀ (fields : List (String × JsValue)) (v : JsValue),
      getField (.vObj fields) "queues" = some v → truthy v = true →
      (∀ xs, v ≠ .vArr xs) →
      extractRelevantData (.vObj fields) "" = Except.ok (some v)) ∧
    (∀ (fields : List (String × JsValue)) (v : JsValue) (fk : String),
      getField (.vObj fields) "queues" = some v → truthy v = true →
      (∀ xs, v ≠ .vArr xs) → fk ≠ "" →
      extractRelevantData (.vObj fields) fk = Except.error ()) ∧
    (∀ (xs : List JsValue) (fk : String),
      fk ≠ "" →
      extractRelevantData (.vArr (.vNull :: xs)) fk = Except.error ()) := by
  refine ⟨?_, ?_, ?_, ?_, ?_, ?_, ?_, ?_, ?_⟩
  · intro qs rest fk hfk hn
    simp [extractRelevantData, getField, lookupField, truthyOpt, truthy, hfk,
      jsFind_name_eq fk qs hn]
  · intro qs rest
    simp [extractRelevantData, getField, lookupField, truthyOpt, truthy]
  · intro xs fk hfk hn
    simp [extractRelevantData, getField, truthyOpt, hfk, jsFind_id_name_eq fk xs hn]
  · intro xs
    simp [extractRelevantData, getField, truthyOpt]
  · intro fields fk hq
    rcases eq_or_ne fk "" with rfl | hfk
    · simp [extractRelevantData, getField, truthy, hq]
    · cases hid : strictEqStr (lookupField fields "id") fk <;>
        cases hnm : strictEqStr (lookupField fields "name") fk <;>
          simp [extractRelevantData, getField, truthy, hq, hfk, hid, hnm]
  · intro fk n str b
    refine ⟨rfl, ?_, ?_, ?_⟩ <;> simp [extractRelevantData, getField, truthyOpt]
  · intro fields v hq htr hv
    cases v with
    | vArr xs => exact absurd rfl (hv xs)
    | vNull => simp [truthy] at htr
    | vBool b => simp_all [extractRelevantData, getField, truthy, truthyOpt]
    | vNum n => simp_all [extractRelevantData, getField, truthy, truthyOpt]
    | vStr s => simp_all [extractRelevantData, getField, truthy, truthyOpt]
    | vObj f₂ => simp_all [extractRelevantData, getField, truthy, truthyOpt]
  · intro fields v fk hq htr hv hfk
    cases v with
    | vArr xs => exact absurd rfl (hv xs)
    | vNull => simp [truthy] at htr
    | vBool b => simp_all [extractRelevantData, getField, truthy, truthyOpt]
    | vNum n => simp_all [extractRelevantData, getField, truthy, truthyOpt]
    | vStr s => simp_all [extractRelevantData, getField, truthy, truthyOpt]
    | vObj f₂ => simp_all [extractRelevantData, getField, truthy, truthyOpt]
  · intro xs fk hfk
    simp [extractRelevantData, getField, truthyOpt, hfk, jsFind, getFieldJS]

/-- C6 (witness): the spec's own examples — filtering the queues list by
name returns the matching entry, and filtering a plain list by an id that
matches nothing returns no record. -/
theorem c6_extract_cases_witness :
    extractRelevantData
      (.vObj [("queues",
        .vArr [.vObj [("name", .vStr "a")], .vObj [("name", .vStr "b")]])]) "b"
      = Except.ok (some (.vObj [("name", .vStr "b")])) ∧
    extractRelevantData (.vArr [.vObj [("id", .vStr "x")], .vObj [("id", .vStr "y")]]) "z"
      = Except.ok none := by
  constructor
  · have h := c6_extract_cases.1
      [.vObj [("name", .vStr "a")], .vObj [("name", .vStr "b")]] [] "b"
      (by decide)
      (by
        intro q hq
        rcases List.mem_cons.mp hq with rfl | hq
        · exact fun hc => JsValue.noConfusion hc
        rcases List.mem_cons.mp hq with rfl | hq
        · exact fun hc => JsValue.noConfusion hc
        · exact absurd hq (List.not_mem_nil q))
    exact h.trans rfl
  · have h := c6_extract_cases.2.2.1
      [.vObj [("id", .vStr "x")], .vObj [("id", .vStr "y")]] "z"
      (by decide)
      (by
        intro q hq
        rcases List.mem_cons.mp hq with rfl | hq
        · exact fun hc => JsValue.noConfusion hc
        rcases List.mem_cons.mp hq with rfl | hq
        · exact fun hc => JsValue.noConfusion hc
        · exact absurd hq (List.not_mem_nil q))
    exact h.trans rfl

/-- The update a poll cycle passes to `updateMonitor` never contains an
`interval` or `isRunning` key. -/
theorem processData_update_frame (m : Monitor) (data : JsValue) (u : Updates)
    (h : (processData m data).update = some u) :
    u.interval = none ∧ u.isRunning = none := by
  unfold processData at h
  split at h
  · simp [caughtEffect] at h
  · split at h
    · simp [noDataEffect] at h
    · rw [apply_ite FetchEffect.update] at h
      split at h <;> split at h <;>
        · simp only [Option.some.injEq] at h
          subst h
          exact ⟨rfl, rfl⟩

/-- The update of a whole `fetchData` invocation never contains an
`interval` or `isRunning` key. -/
theorem fetchData_update_frame (m : Monitor) (input : PollInput) (u : Updates)
    (h : (fetchData m input).update = some u) :
    u.interval = none ∧ u.isRunning = none := by
  unfold fetchData at h
  split at h
  · simp at h
  · split at h
    · simp [caughtEffect] at h
    · split at h
      · simp [caughtEffect] at h
      · split at h
        · exact processData_update_frame _ _ _ h
        · exact processData_update_frame _ _ _ h
        · simp [caughtEffect] at h
        · simp [caughtEffect] at h

/-- `updateMonitor` with an update that has neither an `interval` key nor
`isRunning: false` clears nothing: timers, the interval map, the poll log
and the next handle are untouched, and the registry is a field merge on
the matching entry. -/
theorem updateMonitorOp_no_clear (s : AppState) (id : String) (u : Updates)
    (h1 : u.interval = none) (h2 : u.isRunning ≠ some false) :
    (updateMonitorOp s id u).intervals = s.intervals ∧
    (updateMonitorOp s id u).liveTimers = s.liveTimers ∧
    (updateMonitorOp s id u).pollLog = s.pollLog ∧
    (updateMonitorOp s id u).nextHandle = s.nextHandle ∧
    (updateMonitorOp s id u).monitors
      = s.monitors.map (fun m => if m.id = id then applyUpdates m u else m) := by
  have hcond : (u.interval.isSome || u.isRunning == some false) = false := by
    rw [h1]
    cases hr : u.isRunning with
    | none => rfl
    | some b =>
      cases b with
      | false => exact absurd hr h2
      | true => rfl
  unfold updateMonitorOp
  simp [hcond]

/-- C8: every poll-cycle error is caught at the cycle boundary.  In the
main-thread variant no `fetchData` outcome ever touches the interval map or
any live timer (the next scheduled tick still fires), monitors with a
different id are left in the registry unchanged, and each failure mode —
network failure, non-2xx status, parse failure, unsupported format —
produces exactly one error toast naming the monitor and leaves the whole
state unchanged.  In the worker variant each failure mode posts an ERROR
message for the monitor's id and the page handler leaves the registry
unchanged on ERROR. -/
theorem c8_errors_monitor_scoped :
    (∀ (s : AppState) (m : Monitor) (input : PollInput),
      (fetchDataStep s m input).1.intervals = s.intervals ∧
      (fetchDataStep s m input).1.liveTimers = s.liveTimers) ∧
    (∀ (s : AppState) (m : Monitor) (input : PollInput) (x : Monitor),
      x ∈ s.monitors → x.id ≠ m.id → x ∈ (fetchDataStep s m input).1.monitors) ∧
    (∀ (s : AppState) (m : Monitor) (msg : String), ¬ m.apiUrl = "" →
      fetchDataStep s m (.netFail msg)
        = (s, [.failure ("Error in " ++ m.name ++ ": " ++ msg)])) ∧
    (∀ (s : AppState) (m : Monitor) (st : Nat) (body : BodyParse), ¬ m.apiUrl = "" →
      fetchDataStep s m (.httpResp false st body)
        = (s, [.failure ("Error in " ++ m.name ++ ": "
            ++ ("HTTP error! status: " ++ toString st))])) ∧
    (∀ (s : AppState) (m : Monitor) (st : Nat), ¬ m.apiUrl = "" →
      fetchDataStep s m (.httpResp true st .fallbackBad)
        = (s, [.failure ("Error in " ++ m.name ++ ": " ++ "Failed to parse response data")]) ∧
      fetchDataStep s m (.httpResp true st .unsupported)
        = (s, [.failure ("Error in " ++ m.name ++ ": " ++ "Unsupported response format")])) ∧
    (∀ (m : Monitor) (msg : String) (st : Nat) (body : Except String JsValue)
        (monitors : List Monitor),
      workerTick m (.netFail msg) = .workerErr m.id msg ∧
      workerTick m (.httpResp false st body) = .workerErr m.id ("HTTP " ++ toString st) ∧
      (∀ emsg, workerTick m (.httpResp true st (.error emsg)) = .workerErr m.id emsg) ∧
      (∀ mid emsg, (handleWorkerMessage monitors (.workerErr mid emsg)).1 = monitors)) := by
  refine ⟨?_, ?_, ?_, ?_, ?_, ?_⟩
  · intro s m input
    cases hu : (fetchData m input).update with
    | none => simp [fetchDataStep, hu]
    | some u =>
      obtain ⟨h1, h2⟩ := fetchData_update_frame m input u hu
      obtain ⟨hi, hl, _, _, _⟩ :=
        updateMonitorOp_no_clear s m.id u h1 (by rw [h2]; simp)
      simp only [fetchDataStep, hu]
      exact ⟨hi, hl⟩
  · intro s m input x hx hxid
    cases hu : (fetchData m input).update with
    | none =>
      simp only [fetchDataStep, hu]
      exact hx
    | some u =>
      obtain ⟨h1, h2⟩ := fetchData_update_frame m input u hu
      obtain ⟨_, _, _, _, hmon⟩ :=
        updateMonitorOp_no_clear s m.id u h1 (by rw [h2]; simp)
      simp only [fetchDataStep, hu, hmon]
      have hfx :
          (fun mm => if mm.id = m.id then applyUpdates mm u else mm) x = x := by
        simp [hxid]
      exact hfx ▸ List.mem_map_of_mem _ hx
  · intro s m msg h
    simp [fetchDataStep, fetchData, caughtEffect, h]
  · intro s m st body h
    simp [fetchDataStep, fetchData, caughtEffect, h]
  · intro s m st h
    exact ⟨by simp [fetchDataStep, fetchData, caughtEffect, h],
           by simp [fetchDataStep, fetchData, caughtEffect, h]⟩
  · intro m msg st body monitors
    exact ⟨rfl, rfl, fun emsg => rfl, fun mid emsg => rfl⟩

/-- C8 (witness): a network failure on a concrete monitor toasts one error
naming it and leaves the concrete state unchanged. -/
theorem c8_errors_monitor_scoped_witness :
    fetchDataStep (initState [demoMonitor]) demoMonitor (.netFail "offline")
      = (initState [demoMonitor],
         [.failure ("Error in " ++ "Monitor 1" ++ ": " ++ "offline")]) :=
  c8_errors_monitor_scoped.2.2.1 (initState [demoMonitor]) demoMonitor "offline" (by decide)

/-- `startMonitor` appends one immediate poll to the log and one live timer
for its monitor, whatever the prior state. -/
theorem startMonitorOp_log_and_timers (s : AppState) (m : Monitor) :
    (startMonitorOp s m).pollLog = s.pollLog ++ [m] ∧
    (startMonitorOp s m).liveTimers.map (fun t => t.monitor)
      = s.liveTimers.map (fun t => t.monitor) ++ [m] := by
  unfold startMonitorOp
  obtain ⟨_, hl, hp, _, _⟩ :=
    updateMonitorOp_no_clear
      { s with
        pollLog := s.pollLog ++ [m]
        liveTimers := s.liveTimers ++ [{ handle := s.nextHandle, monitor := m }]
        nextHandle := s.nextHandle + 1
        intervals := s.intervals.filter (fun e => e.1 ≠ m.id) ++ [(m.id, s.nextHandle)] }
      m.id { isRunning := some true } rfl (by simp)
  rw [hp, hl]
  simp

/-- The restore fold of the main-thread variant: one start per running
entry, in order. -/
theorem restore_foldl_log (l : List Monitor) (s : AppState) :
    ((l.foldl (fun s m => if m.isRunning then startMonitorOp s m else s) s).pollLog
        = s.pollLog ++ l.filter (fun m => m.isRunning)) ∧
    ((l.foldl (fun s m => if m.isRunning then startMonitorOp s m else s) s).liveTimers.map
          (fun t => t.monitor)
        = s.liveTimers.map (fun t => t.monitor) ++ l.filter (fun m => m.isRunning)) := by
  induction l generalizing s with
  | nil => simp
  | cons m rest ih =>
    cases hm : m.isRunning with
    | false => simpa [List.foldl, hm, List.filter] using ih s
    | true =>
      obtain ⟨ihp, ihl⟩ := ih (startMonitorOp s m)
      obtain ⟨hp, hl⟩ := startMonitorOp_log_and_timers s m
      simp [List.foldl, hm, List.filter, ihp, ihl, hp, hl]

/-- C9 (counterexample): in the worker variant (part_000), the restore
effect loads the saved monitors but posts no message at all: a config
persisted with `isRunning` true triggers zero poll schedules on restore,
not one. -/
theorem c9_counterexample :
    ({ demoMonitor with isRunning := true }).isRunning = true ∧
    (restoreWorkerVariant [{ demoMonitor with isRunning := true }]).2 = [] ∧
    workerActiveTimers
      ((restoreWorkerVariant [{ demoMonitor with isRunning := true }]).2.foldl
        workerOnMessage workerInit)
      demoMonitor.id = 0 := ⟨rfl, rfl, rfl⟩

/-- C9 (amended): in the main-thread variant, restore re-invokes
`startMonitor` exactly once per entry saved with `isRunning` true — the
poll log holds exactly one immediate cycle per such entry and exactly one
recurring timer per such entry exists, in order; entries saved stopped get
neither.  In the worker variant, restore starts nothing. -/
theorem c9_restore_starts_running (saved : List Monitor) :
    (restoreMain saved).pollLog = saved.filter (fun m => m.isRunning) ∧
    (restoreMain saved).liveTimers.map (fun t => t.monitor)
      = saved.filter (fun m => m.isRunning) ∧
    (restoreWorkerVariant saved).2 = [] := by
  obtain ⟨hp, hl⟩ := restore_foldl_log saved (initState saved)
  exact ⟨by simpa [initState] using hp, by simpa [initState] using hl, rfl⟩

end ApiTrack
